import Mathlib

/-!
Verification development for the ski-conditions data fetcher
(`fetchData.js`).  The JavaScript source is shallowly embedded: each
pure fragment of the program becomes a Lean function, the network is
abstracted as an environment mapping each fetch target to an outcome,
and JavaScript strings are modelled as Lean strings (the inputs of
interest are ASCII, where the two agree character for character).
-/

namespace SkiConditionsData

/-- Outcome of one (already retry-wrapped) network fetch: either the
decoded payload of interest or a thrown error carrying a message. -/
inductive FetchOutcome (α : Type) where
  | ok (value : α)
  | fail (msg : String)
deriving DecidableEq

/- ### JavaScript string primitives -/

/-- Model of `String.prototype.trim` (the inputs of interest only carry
ASCII whitespace, where `Char.isWhitespace` agrees with JS). -/
def jsTrim (s : String) : String :=
  ((s.toList.dropWhile Char.isWhitespace).reverse.dropWhile Char.isWhitespace).reverse.asString

/-- Accumulator-style split of a character list on a single separator
character, mirroring `String.prototype.split` with a one-character
separator. -/
def splitOnCharAux (sep : Char) : List Char → List Char → List (List Char)
  | [], acc => [acc.reverse]
  | c :: cs, acc =>
    if c = sep then acc.reverse :: splitOnCharAux sep cs []
    else splitOnCharAux sep cs (c :: acc)

/-- Model of `s.split(sep)` for a one-character separator `sep`. -/
def jsSplitChar (sep : Char) (s : String) : List String :=
  (splitOnCharAux sep s.toList []).map List.asString

/-- Split on the two-character separator used by
`dateText.split(", ")`, scanning left to right without overlap exactly
as JavaScript does. -/
def splitCommaSpaceAux : List Char → List Char → List (List Char)
  | [], acc => [acc.reverse]
  | [c], acc => [(c :: acc).reverse]
  | c1 :: c2 :: cs, acc =>
    if c1 = ',' ∧ c2 = ' ' then acc.reverse :: splitCommaSpaceAux cs []
    else splitCommaSpaceAux (c2 :: cs) (c1 :: acc)

/-- Model of `s.split(", ")`. -/
def jsSplitCommaSpace (s : String) : List String :=
  (splitCommaSpaceAux s.toList []).map List.asString

/-- Boolean infix test on character lists: is `pat` a contiguous
subsequence of `l`? -/
def infixB (pat l : List Char) : Bool :=
  l.tails.any (fun t => pat.isPrefixOf t)

/-- Model of `s.includes(pat)`. -/
def jsIncludes (s pat : String) : Bool :=
  infixB pat.toList s.toList

/-- Model of `s.toLowerCase()` (ASCII-faithful). -/
def jsToLower (s : String) : String :=
  (s.toList.map Char.toLower).asString

/- ### JavaScript `Date` model for the trail-report headers

`new Date("<Mon> <D>, <YYYY>")` either yields a valid date or the
truthy Invalid Date (whose numeric value is NaN, so every ordering
comparison involving it is false).  All dates the program constructs
this way denote local midnight of a civil date, so the millisecond
ordering used by `>` coincides with lexicographic ordering of
(year, month, day); we therefore carry the civil triple directly. -/
inductive JsDate where
  | invalid
  | valid (year month day : Nat)
deriving DecidableEq

/-- Model of JavaScript `d1 > d2` on two `Date` values (comparisons
with Invalid Date, i.e. NaN, are always false). -/
def jsDateGt : JsDate → JsDate → Bool
  | .valid y1 m1 d1, .valid y2 m2 d2 =>
      decide (y2 < y1 ∨ (y1 = y2 ∧ (m2 < m1 ∨ (m1 = m2 ∧ d2 < d1))))
  | _, _ => false

def monthNames : List String :=
  [("Jan"), ("Feb"), ("Mar"), ("Apr"), ("May"), ("Jun"),
   ("Jul"), ("Aug"), ("Sep"), ("Oct"), ("Nov"), ("Dec")]

def monthNumberAux : List String → Nat → String → Option Nat
  | [], _, _ => none
  | n :: ns, i, m => if n = m then some (i + 1) else monthNumberAux ns (i + 1) m

/-- 1-based month number of a three-letter month abbreviation (the
format the trail-report site publishes). -/
def monthNumber (m : String) : Option Nat :=
  monthNumberAux monthNames 0 m

def isLeapYear (y : Nat) : Bool :=
  (y % 4 == 0 && y % 100 != 0) || y % 400 == 0

def daysInMonth (m y : Nat) : Nat :=
  match m with
  | 1 => 31
  | 2 => if isLeapYear y then 29 else 28
  | 3 => 31
  | 4 => 30
  | 5 => 31
  | 6 => 30
  | 7 => 31
  | 8 => 31
  | 9 => 30
  | 10 => 31
  | 11 => 30
  | 12 => 31
  | _ => 0

/-- Decimal-digit parse of a day token: all-digit and non-empty, else
nothing. -/
def parseDigits (l : List Char) : Option Nat :=
  if l.isEmpty || !(l.all Char.isDigit) then none
  else some (l.foldl (fun a c => a * 10 + (c.toNat - 48)) 0)

/-- Model of `new Date(datePart + ", " + year)` for the header date
part, e.g. `new Date("Jan 14, 2025")`: a recognisable "Month Day" text
with an in-range day yields a valid date, anything else yields the
(truthy, incomparable) Invalid Date. -/
def jsNewDateMonthDay (datePart : String) (year : Nat) : JsDate :=
  match jsSplitChar ' ' datePart with
  | [mon, dayStr] =>
    match monthNumber mon, parseDigits dayStr.toList with
    | some m, some d =>
        if 1 ≤ d ∧ d ≤ daysInMonth m year then .valid year m d else .invalid
    | _, _ => .invalid
  | _ => .invalid

/-- Embedding of `parseDateFromHeader(dateText)`: split on the
two-character separator ", "; any part count other than two yields
null, otherwise the result of the `new Date` call above (the
`currentYear` read from the clock is passed explicitly). -/
def parseDateFromHeader (currentYear : Nat) (dateText : String) : Option JsDate :=
  if (jsSplitCommaSpace dateText).length ≠ 2 then none
  else some (jsNewDateMonthDay ((jsSplitCommaSpace dateText).getD 1 ("")) currentYear)

/-- Did the parse produce a usable (comparable) date?  Null and
Invalid Date both fail this. -/
def parsedOk : Option JsDate → Bool
  | some (.valid _ _ _) => true
  | _ => false

/-- Model of `a > b` where each side is a `Date` or null: JavaScript
only evaluates the comparison after both truthiness checks, and any
comparison with null or NaN is false. -/
def optDateGt : Option JsDate → Option JsDate → Bool
  | some a, some b => jsDateGt a b
  | _, _ => false

/- ### Regional trail-report adapter (getNordicSkiRacerConditions) -/

/-- One stored entry of the `conditions` object: the raw date text, the
report body, and the internal comparison date (deleted before the
adapter returns). -/
structure TrailEntry where
  lastUpdated : String
  conditions : String
  date : Option JsDate
deriving DecidableEq

/-- Property read on a JavaScript object modelled as an ordered
association list (first binding wins; real objects have unique keys). -/
def objGet {α : Type} : List (String × α) → String → Option α
  | [], _ => none
  | (k', v) :: m, k => if k' = k then some v else objGet m k

/-- Property write on a JavaScript object: replace in place if present,
append otherwise (insertion order preserved, as JS objects do). -/
def objSet {α : Type} : List (String × α) → String → α → List (String × α)
  | [], k, v => [(k, v)]
  | (k', v') :: m, k, v =>
    if k' = k then (k, v) :: m else (k', v') :: objSet m k v

def relevantLocations : List String :=
  [("Nubs Nob"), ("Huron Meadows Metropark"), ("Shelby Township")]

/-- Truthiness of `relevantLocations.find(...)`: some allowlist name is
a case-insensitive substring of the location segment. -/
def locationRelevant (locationSection : String) : Bool :=
  (relevantLocations.find?
    (fun loc => jsIncludes (jsToLower locationSection) (jsToLower loc))).isSome

/-- Core of the per-header merge, after the header has been split and
trimmed: store the incoming report when the key is absent, or when the
incoming date and the stored date are both truthy and the incoming one
compares strictly greater (lines 303-319 of the source). -/
def processReport (y : Nat) (m : List (String × TrailEntry))
    (dateSection locationSection reportText : String) : List (String × TrailEntry) :=
  if (match objGet m locationSection with
      | none => true
      | some old =>
          (parseDateFromHeader y dateSection).isSome && old.date.isSome
            && optDateGt (parseDateFromHeader y dateSection) old.date) = true
  then
    objSet m locationSection
      { lastUpdated := dateSection, conditions := reportText,
        date := parseDateFromHeader y dateSection }
  else m

/-- Processing of one h4 header and its following paragraph: trim, split
on the colon, require at least two parts, trim the date and location
segments, check relevance, then merge. -/
def processHeader (y : Nat) (m : List (String × TrailEntry))
    (rawHeader rawReport : String) : List (String × TrailEntry) :=
  if (jsSplitChar ':' (jsTrim rawHeader)).length < 2 then m
  else
    if locationRelevant (jsTrim ((jsSplitChar ':' (jsTrim rawHeader)).getD 1 (""))) then
      processReport y m
        (jsTrim ((jsSplitChar ':' (jsTrim rawHeader)).getD 0 ("")))
        (jsTrim ((jsSplitChar ':' (jsTrim rawHeader)).getD 1 ("")))
        (jsTrim rawReport)
    else m

/-- One region's contribution: a failed region request is logged and
contributes nothing; a successful one folds its header/paragraph pairs
into the shared map. -/
def processRegion (y : Nat) (m : List (String × TrailEntry))
    (outcome : FetchOutcome (List (String × String))) : List (String × TrailEntry) :=
  match outcome with
  | .fail _ => m
  | .ok headers => headers.foldl (fun acc hr => processHeader y acc hr.1 hr.2) m

def nordicRegions : List Nat := [11, 13]

def regionsFold (y : Nat) (rs : List Nat)
    (env : Nat → FetchOutcome (List (String × String)))
    (m : List (String × TrailEntry)) : List (String × TrailEntry) :=
  rs.foldl (fun acc r => processRegion y acc (env r)) m

/-- Published form of a trail entry, after the comparison date has been
deleted. -/
structure TrailOut where
  lastUpdated : String
  conditions : String
deriving DecidableEq

def stripDates (m : List (String × TrailEntry)) : List (String × TrailOut) :=
  m.map (fun kv => (kv.1, { lastUpdated := kv.2.lastUpdated, conditions := kv.2.conditions }))

def getNordicOfRegions (y : Nat) (rs : List Nat)
    (env : Nat → FetchOutcome (List (String × String))) : List (String × TrailOut) :=
  stripDates (regionsFold y rs env [])

/-- Embedding of `getNordicSkiRacerConditions` over an environment
giving each region's (post-retry) fetch outcome as the list of
header-text/report-text pairs its page surfaces. -/
def getNordicSkiRacerConditions (y : Nat)
    (env : Nat → FetchOutcome (List (String × String))) : List (String × TrailOut) :=
  getNordicOfRegions y nordicRegions env

/-- Pattern-level reading of the spec's "Weekday, Month Day" header
shape (e.g. "Tue, Jan 14"): a recognised weekday abbreviation, the
two-character separator, then a parsable month name and day number.
Stated from the specification's words, for comparison with the
implementation's actual acceptance condition. -/
def weekdayNames : List String :=
  [("Sun"), ("Mon"), ("Tue"), ("Wed"), ("Thu"), ("Fri"), ("Sat")]

def weekdayMonthDayShape (t : String) : Bool :=
  match jsSplitCommaSpace t with
  | [w, md] =>
      weekdayNames.contains w &&
        (match jsSplitChar ' ' md with
         | [mon, dayStr] => (monthNumber mon).isSome && (parseDigits dayStr.toList).isSome
         | _ => false)
  | _ => false

/- ### Lemmas about the trail-report merge -/

/-- The truthiness-guarded comparison the code performs coincides with
"both dates parsed to a valid date and the incoming one is later":
an Invalid Date is truthy but compares false both ways. -/
theorem truthyCond_eq_parsedCond (cd od : Option JsDate) :
    (cd.isSome && od.isSome && optDateGt cd od)
      = (parsedOk cd && parsedOk od && optDateGt cd od) := by
  cases cd with
  | none => rfl
  | some a =>
    cases od with
    | none => cases a <;> rfl
    | some b => cases a <;> cases b <;> simp [parsedOk, optDateGt, jsDateGt]

/-- On an already-present key the merge is exactly the guarded
replacement. -/
theorem processReport_present (y : Nat) (m : List (String × TrailEntry))
    (d ℓ b : String) (old : TrailEntry) (hold : objGet m ℓ = some old) :
    processReport y m d ℓ b =
      if (parsedOk (parseDateFromHeader y d) && parsedOk old.date
            && optDateGt (parseDateFromHeader y d) old.date) = true
      then objSet m ℓ
            { lastUpdated := d, conditions := b, date := parseDateFromHeader y d }
      else m := by
  unfold processReport
  simp only [hold]
  rw [truthyCond_eq_parsedCond]

/-- On an absent key the merge always stores the incoming report under
the raw location-segment key. -/
theorem processReport_insert (y : Nat) (m : List (String × TrailEntry))
    (d ℓ b : String) (hnone : objGet m ℓ = none) :
    processReport y m d ℓ b =
      objSet m ℓ { lastUpdated := d, conditions := b, date := parseDateFromHeader y d } := by
  unfold processReport
  simp [hnone]

/-- If either side's date parse failed (null or Invalid Date), an
existing entry is never replaced. -/
theorem processReport_keep (y : Nat) (m : List (String × TrailEntry))
    (d ℓ b : String) (old : TrailEntry) (hold : objGet m ℓ = some old)
    (hbad : parsedOk (parseDateFromHeader y d) = false ∨ parsedOk old.date = false) :
    processReport y m d ℓ b = m := by
  rw [processReport_present y m d ℓ b old hold]
  rcases hbad with h | h <;> simp [h]

/-- Header processing reduces to the merge core once the header splits
on the colon into at least two parts and the location segment matches
the allowlist. -/
theorem processHeader_eval (y : Nat) (m : List (String × TrailEntry))
    (hdr b dsec lsec : String) (rest : List String)
    (hsplit : jsSplitChar ':' (jsTrim hdr) = dsec :: lsec :: rest)
    (hrel : locationRelevant (jsTrim lsec) = true) :
    processHeader y m hdr b = processReport y m (jsTrim dsec) (jsTrim lsec) (jsTrim b) := by
  unfold processHeader
  rw [hsplit]
  simp [hrel]

theorem processHeader_jan13 (m : List (String × TrailEntry)) (b : String) :
    processHeader 2026 m ("Mon, Jan 13: Nubs Nob - XC") b
      = processReport 2026 m ("Mon, Jan 13") ("Nubs Nob - XC") (jsTrim b) := by
  rw [processHeader_eval 2026 m ("Mon, Jan 13: Nubs Nob - XC") b ("Mon, Jan 13")
        ((" Nubs Nob - XC")) [] (by decide) (by decide),
      (by decide : jsTrim (("Mon, Jan 13")) = ("Mon, Jan 13")),
      (by decide : jsTrim ((" Nubs Nob - XC")) = ("Nubs Nob - XC"))]

theorem processHeader_jan14 (m : List (String × TrailEntry)) (b : String) :
    processHeader 2026 m ("Tue, Jan 14: Nubs Nob - XC") b
      = processReport 2026 m ("Tue, Jan 14") ("Nubs Nob - XC") (jsTrim b) := by
  rw [processHeader_eval 2026 m ("Tue, Jan 14: Nubs Nob - XC") b ("Tue, Jan 14")
        ((" Nubs Nob - XC")) [] (by decide) (by decide),
      (by decide : jsTrim (("Tue, Jan 14")) = ("Tue, Jan 14")),
      (by decide : jsTrim ((" Nubs Nob - XC")) = ("Nubs Nob - XC"))]

/-- Claim C1: the merged conditions map is keyed by the raw matched
location-segment string; for an already-present key the incoming
report replaces the stored entry if and only if both dates parsed
successfully (to valid, comparable dates) and the incoming one is
strictly later, and a failed parse on either side leaves the existing
entry unchanged; a fresh key always stores the incoming report under
the raw segment. -/
theorem nordic_merge_replaces_iff_strictly_later
    (y : Nat) (m m₂ : List (String × TrailEntry))
    (d ℓ b d₂ ℓ₂ b₂ : String) (old : TrailEntry)
    (hold : objGet m ℓ = some old) (hfresh : objGet m₂ ℓ₂ = none) :
    processReport y m d ℓ b =
      (if (parsedOk (parseDateFromHeader y d) && parsedOk old.date
            && optDateGt (parseDateFromHeader y d) old.date) = true
       then objSet m ℓ
              { lastUpdated := d, conditions := b, date := parseDateFromHeader y d }
       else m)
    ∧ processReport y m₂ d₂ ℓ₂ b₂
        = objSet m₂ ℓ₂
            { lastUpdated := d₂, conditions := b₂, date := parseDateFromHeader y d₂ } :=
  ⟨processReport_present y m d ℓ b old hold, processReport_insert y m₂ d₂ ℓ₂ b₂ hfresh⟩

theorem nordic_merge_replaces_iff_strictly_later_witness :
    processReport 2026
        [(("Nubs Nob - XC"),
          ({ lastUpdated := ("Mon, Jan 13"), conditions := ("r1"),
             date := some (JsDate.valid 2026 1 13) } : TrailEntry))]
        ("Tue, Jan 14") ("Nubs Nob - XC") ("r2")
      = [(("Nubs Nob - XC"),
          ({ lastUpdated := ("Tue, Jan 14"), conditions := ("r2"),
             date := some (JsDate.valid 2026 1 14) } : TrailEntry))]
    ∧ processReport 2026 [] ("Mon, Jan 13") ("Nubs Nob - XC") ("r1")
      = [(("Nubs Nob - XC"),
          ({ lastUpdated := ("Mon, Jan 13"), conditions := ("r1"),
             date := some (JsDate.valid 2026 1 13) } : TrailEntry))] := by
  have h := nordic_merge_replaces_iff_strictly_later 2026
    [(("Nubs Nob - XC"),
      ({ lastUpdated := ("Mon, Jan 13"), conditions := ("r1"),
         date := some (JsDate.valid 2026 1 13) } : TrailEntry))] []
    ("Tue, Jan 14") ("Nubs Nob - XC") ("r2") ("Mon, Jan 13") ("Nubs Nob - XC") ("r1")
    { lastUpdated := ("Mon, Jan 13"), conditions := ("r1"),
      date := some (JsDate.valid 2026 1 13) } (by decide) (by decide)
  constructor
  · rw [h.1]; decide
  · rw [h.2]; decide

/-- Claim C2: processing the Jan 13 and Jan 14 reports for the same
location segment in either order yields the same map, whose entry
reflects the Jan 14 report; and whenever either of two same-segment
reports has an unparseable date, the entry stored first is retained
regardless of arrival order. -/
theorem nordic_merge_commutative_tiebreak
    (r₁ r₂ d₃ d₄ ℓ b₃ b₄ : String)
    (hbad : parsedOk (parseDateFromHeader 2026 d₃) = false
          ∨ parsedOk (parseDateFromHeader 2026 d₄) = false) :
    processHeader 2026 (processHeader 2026 [] ("Mon, Jan 13: Nubs Nob - XC") r₁)
        ("Tue, Jan 14: Nubs Nob - XC") r₂
      = processHeader 2026 (processHeader 2026 [] ("Tue, Jan 14: Nubs Nob - XC") r₂)
          ("Mon, Jan 13: Nubs Nob - XC") r₁
    ∧ objGet (processHeader 2026 (processHeader 2026 [] ("Mon, Jan 13: Nubs Nob - XC") r₁)
          ("Tue, Jan 14: Nubs Nob - XC") r₂) (("Nubs Nob - XC"))
        = some { lastUpdated := ("Tue, Jan 14"), conditions := jsTrim r₂,
                 date := some (JsDate.valid 2026 1 14) }
    ∧ processReport 2026 (processReport 2026 [] d₃ ℓ b₃) d₄ ℓ b₄
        = processReport 2026 [] d₃ ℓ b₃ := by
  have e13 : parseDateFromHeader 2026 (("Mon, Jan 13")) = some (JsDate.valid 2026 1 13) := by
    decide
  have e14 : parseDateFromHeader 2026 (("Tue, Jan 14")) = some (JsDate.valid 2026 1 14) := by
    decide
  have stepA1 : processHeader 2026 [] ("Mon, Jan 13: Nubs Nob - XC") r₁
      = [(("Nubs Nob - XC"),
          ({ lastUpdated := ("Mon, Jan 13"), conditions := jsTrim r₁,
             date := some (JsDate.valid 2026 1 13) } : TrailEntry))] := by
    rw [processHeader_jan13,
        processReport_insert 2026 [] ("Mon, Jan 13") ("Nubs Nob - XC") (jsTrim r₁) rfl, e13]
    rfl
  have stepB1 : processHeader 2026 [] ("Tue, Jan 14: Nubs Nob - XC") r₂
      = [(("Nubs Nob - XC"),
          ({ lastUpdated := ("Tue, Jan 14"), conditions := jsTrim r₂,
             date := some (JsDate.valid 2026 1 14) } : TrailEntry))] := by
    rw [processHeader_jan14,
        processReport_insert 2026 [] ("Tue, Jan 14") ("Nubs Nob - XC") (jsTrim r₂) rfl, e14]
    rfl
  have stepA2 : processHeader 2026
      [(("Nubs Nob - XC"),
        ({ lastUpdated := ("Mon, Jan 13"), conditions := jsTrim r₁,
           date := some (JsDate.valid 2026 1 13) } : TrailEntry))]
      ("Tue, Jan 14: Nubs Nob - XC") r₂
      = [(("Nubs Nob - XC"),
          ({ lastUpdated := ("Tue, Jan 14"), conditions := jsTrim r₂,
             date := some (JsDate.valid 2026 1 14) } : TrailEntry))] := by
    rw [processHeader_jan14,
        processReport_present 2026 _ ("Tue, Jan 14") ("Nubs Nob - XC") (jsTrim r₂)
          { lastUpdated := ("Mon, Jan 13"), conditions := jsTrim r₁,
            date := some (JsDate.valid 2026 1 13) } (by simp [objGet]),
        if_pos (by
          show (parsedOk (parseDateFromHeader 2026 (("Tue, Jan 14")))
              && parsedOk (some (JsDate.valid 2026 1 13))
              && optDateGt (parseDateFromHeader 2026 (("Tue, Jan 14")))
                  (some (JsDate.valid 2026 1 13))) = true
          decide), e14]
    simp [objSet]
  have stepB2 : processHeader 2026
      [(("Nubs Nob - XC"),
        ({ lastUpdated := ("Tue, Jan 14"), conditions := jsTrim r₂,
           date := some (JsDate.valid 2026 1 14) } : TrailEntry))]
      ("Mon, Jan 13: Nubs Nob - XC") r₁
      = [(("Nubs Nob - XC"),
          ({ lastUpdated := ("Tue, Jan 14"), conditions := jsTrim r₂,
             date := some (JsDate.valid 2026 1 14) } : TrailEntry))] := by
    rw [processHeader_jan13,
        processReport_present 2026 _ ("Mon, Jan 13") ("Nubs Nob - XC") (jsTrim r₁)
          { lastUpdated := ("Tue, Jan 14"), conditions := jsTrim r₂,
            date := some (JsDate.valid 2026 1 14) } (by simp [objGet]),
        if_neg (by
          show ¬ (parsedOk (parseDateFromHeader 2026 (("Mon, Jan 13")))
              && parsedOk (some (JsDate.valid 2026 1 14))
              && optDateGt (parseDateFromHeader 2026 (("Mon, Jan 13")))
                  (some (JsDate.valid 2026 1 14))) = true
          decide)]
  refine ⟨?_, ?_, ?_⟩
  · rw [stepA1, stepA2, stepB1, stepB2]
  · rw [stepA1, stepA2]; simp [objGet]
  · rw [processReport_insert 2026 [] d₃ ℓ b₃ rfl]
    apply processReport_keep 2026 _ d₄ ℓ b₄
      { lastUpdated := d₃, conditions := b₃, date := parseDateFromHeader 2026 d₃ }
    · simp [objSet, objGet]
    · rcases hbad with h | h
      · exact Or.inr h
      · exact Or.inl h

theorem nordic_merge_commutative_tiebreak_witness :
    processHeader 2026 (processHeader 2026 [] ("Mon, Jan 13: Nubs Nob - XC") ("fresh"))
        ("Tue, Jan 14: Nubs Nob - XC") ("icy")
      = processHeader 2026 (processHeader 2026 [] ("Tue, Jan 14: Nubs Nob - XC") ("icy"))
          ("Mon, Jan 13: Nubs Nob - XC") ("fresh")
    ∧ objGet (processHeader 2026 (processHeader 2026 [] ("Mon, Jan 13: Nubs Nob - XC") ("fresh"))
          ("Tue, Jan 14: Nubs Nob - XC") ("icy")) (("Nubs Nob - XC"))
        = some { lastUpdated := ("Tue, Jan 14"), conditions := jsTrim (("icy")),
                 date := some (JsDate.valid 2026 1 14) }
    ∧ processReport 2026 (processReport 2026 [] ("Sometime") ("Nubs Nob - XC") ("a"))
          ("Tue, Jan 14") ("Nubs Nob - XC") ("b")
        = processReport 2026 [] ("Sometime") ("Nubs Nob - XC") ("a") :=
  nordic_merge_commutative_tiebreak ("fresh") ("icy") ("Sometime") ("Tue, Jan 14")
    ("Nubs Nob - XC") ("a") ("b") (Or.inl (by decide))

/-- Claim C9 counterexample: the parse is not gated on the shape
"Weekday, Month Day" — a segment whose first part is not a weekday at
all still yields a comparable date, because the code never inspects
the text before the comma-space. -/
theorem parse_header_accepts_non_weekday :
    weekdayMonthDayShape (("Banana, Jan 14")) = false
    ∧ parsedOk (parseDateFromHeader 2026 (("Banana, Jan 14"))) = true := by
  decide

/-- Claim C9 (amended): parseDateFromHeader returns null exactly when
the segment does not split on the two-character separator into exactly
two parts; when it does split, the result is a date interpreted in the
current year, valid (comparable) exactly when the second part parses
as "Month Day" — the weekday text is never validated, and an
unparseable second part yields the truthy-but-incomparable Invalid
Date rather than null.  The merge treats both null and Invalid Date as
"cannot determine recency": such a report never replaces an existing
entry and such an entry is never replaced. -/
theorem parse_header_option_contract
    (y y₂ : Nat) (t d ℓ b : String) (m : List (String × TrailEntry)) (old : TrailEntry)
    (hold : objGet m ℓ = some old)
    (hbad : parsedOk (parseDateFromHeader y₂ d) = false ∨ parsedOk old.date = false) :
    (parseDateFromHeader y t = none ↔ (jsSplitCommaSpace t).length ≠ 2)
    ∧ parseDateFromHeader y (("Tue, Jan 14")) = some (JsDate.valid y 1 14)
    ∧ parseDateFromHeader y (("Tue, not a date")) = some JsDate.invalid
    ∧ processReport y₂ m d ℓ b = m := by
  refine ⟨?_, ?_, ?_, processReport_keep y₂ m d ℓ b old hold hbad⟩
  · unfold parseDateFromHeader
    by_cases hl : (jsSplitCommaSpace t).length ≠ 2
    · rw [if_pos hl]; exact iff_of_true rfl hl
    · rw [if_neg hl]; exact iff_of_false (by simp) hl
  · unfold parseDateFromHeader
    simp only [(by decide : jsSplitCommaSpace (("Tue, Jan 14")) = [("Tue"), ("Jan 14")]),
               List.length_cons, List.length_nil, List.getD_cons_succ, List.getD_cons_zero]
    rw [if_neg (by omega)]
    unfold jsNewDateMonthDay
    simp only [(by decide : jsSplitChar ' ' (("Jan 14")) = [("Jan"), ("14")]),
               (by decide : monthNumber (("Jan")) = some 1),
               (by decide : parseDigits (String.toList (("14"))) = some 14)]
    norm_num [daysInMonth]
  · unfold parseDateFromHeader
    simp only [(by decide : jsSplitCommaSpace (("Tue, not a date")) = [("Tue"), ("not a date")]),
               List.length_cons, List.length_nil, List.getD_cons_succ, List.getD_cons_zero]
    rw [if_neg (by omega)]
    unfold jsNewDateMonthDay
    simp only [(by decide :
      jsSplitChar ' ' (("not a date")) = [("not"), ("a"), ("date")])]

theorem parse_header_option_contract_witness :
    (parseDateFromHeader 2025 (("Tue, Jan 14")) = none
        ↔ (jsSplitCommaSpace (("Tue, Jan 14"))).length ≠ 2)
    ∧ parseDateFromHeader 2025 (("Tue, Jan 14")) = some (JsDate.valid 2025 1 14)
    ∧ parseDateFromHeader 2025 (("Tue, not a date")) = some JsDate.invalid
    ∧ processReport 2026
        [(("Nubs Nob - XC"),
          ({ lastUpdated := ("Mon, Jan 13"), conditions := ("r"),
             date := some (JsDate.valid 2026 1 13) } : TrailEntry))]
        ("Sometime") ("Nubs Nob - XC") ("x")
      = [(("Nubs Nob - XC"),
          ({ lastUpdated := ("Mon, Jan 13"), conditions := ("r"),
             date := some (JsDate.valid 2026 1 13) } : TrailEntry))] :=
  parse_header_option_contract 2025 2026 ("Tue, Jan 14") ("Sometime") ("Nubs Nob - XC") ("x")
    [(("Nubs Nob - XC"),
      ({ lastUpdated := ("Mon, Jan 13"), conditions := ("r"),
         date := some (JsDate.valid 2026 1 13) } : TrailEntry))]
    { lastUpdated := ("Mon, Jan 13"), conditions := ("r"),
      date := some (JsDate.valid 2026 1 13) }
    (by decide) (Or.inl (by decide))

/- ### Retry executor (fetchWithRetry) -/

instance exceptDecEq {ε α : Type} [DecidableEq ε] [DecidableEq α] :
    DecidableEq (Except ε α) := fun x y =>
  match x, y with
  | .ok a, .ok b =>
    if h : a = b then .isTrue (by rw [h])
    else .isFalse (by intro hh; injection hh; contradiction)
  | .error a, .error b =>
    if h : a = b then .isTrue (by rw [h])
    else .isFalse (by intro hh; injection hh; contradiction)
  | .ok _, .error _ => .isFalse (by intro hh; injection hh)
  | .error _, .ok _ => .isFalse (by intro hh; injection hh)

/-- Observable behaviour of one `fetchWithRetry` run: the returned or
thrown value (`Except.ok none` models the `undefined` the function
returns when the loop never runs), how many times the operation was
invoked, and the backoff delays (in milliseconds) awaited between
consecutive attempts. -/
structure RetryTrace (α : Type) where
  result : Except String (Option α)
  calls : Nat
  delays : List Nat
deriving DecidableEq

/-- Loop body of `fetchWithRetry`: `i` is the 0-based index of the next
attempt and the second argument the number of attempts remaining
(`retries - i`); the JS guard `i === retries - 1` corresponds to one
attempt remaining. -/
def retryGo (fn : Nat → Except String α) : Nat → Nat → RetryTrace α
  | _, 0 => { result := Except.ok none, calls := 0, delays := [] }
  | i, rem + 1 =>
    match fn i with
    | Except.ok a => { result := Except.ok (some a), calls := 1, delays := [] }
    | Except.error e =>
      if rem = 0 then { result := Except.error e, calls := 1, delays := [] }
      else
        { result := (retryGo fn (i + 1) rem).result,
          calls := (retryGo fn (i + 1) rem).calls + 1,
          delays := (1000 * 2 ^ i) :: (retryGo fn (i + 1) rem).delays }

/-- Embedding of `fetchWithRetry(fn, retries)`; the operation is given
as the outcome of each attempt by index. -/
def fetchWithRetry (fn : Nat → Except String α) (retries : Nat) : RetryTrace α :=
  retryGo fn 0 retries

/-- The default value of the `retries` parameter. -/
def defaultRetries : Nat := 3

theorem retryGo_err_step {α : Type} (fn : Nat → Except String α) (i rem : Nat) (e : String)
    (he : fn i = Except.error e) :
    retryGo fn i (rem + 1) =
      if rem = 0 then { result := Except.error e, calls := 1, delays := [] }
      else { result := (retryGo fn (i + 1) rem).result,
             calls := (retryGo fn (i + 1) rem).calls + 1,
             delays := (1000 * 2 ^ i) :: (retryGo fn (i + 1) rem).delays } := by
  conv_lhs => rw [retryGo]
  rw [he]

theorem retryGo_ok_step {α : Type} (fn : Nat → Except String α) (i rem : Nat) (a : α)
    (he : fn i = Except.ok a) :
    retryGo fn i (rem + 1) = { result := Except.ok (some a), calls := 1, delays := [] } := by
  conv_lhs => rw [retryGo]
  rw [he]

theorem range_pow_shift (i n : Nat) :
    (List.range (n + 1)).map (fun j => 1000 * 2 ^ (i + j))
      = (1000 * 2 ^ i) :: (List.range n).map (fun j => 1000 * 2 ^ (i + 1 + j)) := by
  rw [List.range_succ_eq_map, List.map_cons, List.map_map]
  have h1 : 1000 * 2 ^ (i + 0) = 1000 * 2 ^ i := by norm_num
  have h2 : ((fun j => 1000 * 2 ^ (i + j)) ∘ Nat.succ) = (fun j => 1000 * 2 ^ (i + 1 + j)) := by
    funext j
    show 1000 * 2 ^ (i + Nat.succ j) = 1000 * 2 ^ (i + 1 + j)
    have h : i + Nat.succ j = i + 1 + j := by omega
    rw [h]
  rw [h1, h2]

theorem retryGo_allFail {α : Type} (fn : Nat → Except String α) (errs : Nat → String)
    (hfail : ∀ j, fn j = Except.error (errs j)) :
    ∀ rem i, 1 ≤ rem → retryGo fn i rem =
      { result := Except.error (errs (i + rem - 1)), calls := rem,
        delays := (List.range (rem - 1)).map (fun j => 1000 * 2 ^ (i + j)) } := by
  intro rem
  induction rem with
  | zero => intro i h; omega
  | succ r ih =>
    intro i _
    rw [retryGo_err_step fn i r (errs i) (hfail i)]
    cases r with
    | zero => simp
    | succ r' =>
      rw [if_neg (Nat.succ_ne_zero r'), ih (i + 1) (by omega)]
      simp only [Nat.add_sub_cancel]
      rw [range_pow_shift i r']
      have h1 : i + 1 + (r' + 1) - 1 = i + (r' + 1 + 1) - 1 := by omega
      rw [h1]

theorem retryGo_succeeds {α : Type} (fn : Nat → Except String α) (errs : Nat → String) (a : α) :
    ∀ d i rem, d < rem → (∀ j, j < d → fn (i + j) = Except.error (errs (i + j))) →
      fn (i + d) = Except.ok a →
      retryGo fn i rem =
        { result := Except.ok (some a), calls := d + 1,
          delays := (List.range d).map (fun j => 1000 * 2 ^ (i + j)) } := by
  intro d
  induction d with
  | zero =>
    intro i rem hrem _ hok
    match rem, hrem with
    | r + 1, _ =>
      rw [retryGo_ok_step fn i r a (by simpa using hok)]
      simp
  | succ d' ih =>
    intro i rem hrem hbef hok
    match rem, hrem with
    | r + 1, hrem =>
      have h0 : fn i = Except.error (errs i) := by
        have := hbef 0 (by omega)
        simpa using this
      rw [retryGo_err_step fn i r (errs i) h0, if_neg (by omega : r ≠ 0)]
      have hrec := ih (i + 1) r (by omega)
        (fun j hj => by
          have := hbef (j + 1) (by omega)
          have harith : i + (j + 1) = i + 1 + j := by omega
          rwa [harith] at this)
        (by
          have harith : i + (d' + 1) = i + 1 + d' := by omega
          rwa [harith] at hok)
      rw [hrec, range_pow_shift i d']

/-- Claim C3 counterexample: with retry bound 0 the loop body never
runs, so an always-failing operation is indeed called zero times but
no error is re-raised — the call returns undefined successfully,
contradicting "for every retry bound ... then re-raises the final
error". -/
theorem retry_zero_bound_no_error :
    ¬ ∃ e, (fetchWithRetry (fun _ => (Except.error ("boom") : Except String Nat)) 0).result
        = Except.error e := by
  intro ⟨e, h⟩
  simp [fetchWithRetry, retryGo] at h

/-- Claim C3 (amended): for every operation and every retry bound of at
least 1, an operation failing on every attempt is called exactly
`retries` times (default 3) and the final error is re-raised; an
operation first succeeding on its k-th attempt (1 ≤ k ≤ bound) is
called exactly k times and its result returned; between consecutive
attempts the executor waits 1000·2^i milliseconds (base one second,
doubling per attempt).  With bound 0 the operation is never called and
the executor returns undefined instead of raising. -/
theorem retry_executor_call_counts {α : Type}
    (fn g : Nat → Except String α) (errs gerrs : Nat → String)
    (retries retries₂ k : Nat) (a : α)
    (h1 : 1 ≤ retries)
    (hfail : ∀ j, fn j = Except.error (errs j))
    (hk1 : 1 ≤ k) (hk2 : k ≤ retries₂)
    (hbefore : ∀ j, j < k - 1 → g j = Except.error (gerrs j))
    (hsucc : g (k - 1) = Except.ok a) :
    defaultRetries = 3
    ∧ fetchWithRetry fn retries =
        { result := Except.error (errs (retries - 1)), calls := retries,
          delays := (List.range (retries - 1)).map (fun i => 1000 * 2 ^ i) }
    ∧ fetchWithRetry g retries₂ =
        { result := Except.ok (some a), calls := k,
          delays := (List.range (k - 1)).map (fun i => 1000 * 2 ^ i) } := by
  refine ⟨rfl, ?_, ?_⟩
  · have h := retryGo_allFail fn errs hfail retries 0 h1
    simpa [fetchWithRetry] using h
  · have h := retryGo_succeeds g gerrs a (k - 1) 0 retries₂ (by omega)
      (fun j hj => by simpa using hbefore j hj)
      (by simpa using hsucc)
    have hk : k - 1 + 1 = k := by omega
    rw [hk] at h
    simpa [fetchWithRetry] using h

theorem retry_executor_call_counts_witness :
    defaultRetries = 3
    ∧ fetchWithRetry (fun _ => (Except.error ("e") : Except String Nat)) 3 =
        { result := Except.error ("e"), calls := 3, delays := [1000, 2000] }
    ∧ fetchWithRetry (fun j => if j < 1 then (Except.error ("e") : Except String Nat)
          else Except.ok 5) 3 =
        { result := Except.ok (some 5), calls := 2, delays := [1000] } := by
  have h := retry_executor_call_counts
    (fun _ => (Except.error ("e") : Except String Nat))
    (fun j => if j < 1 then (Except.error ("e") : Except String Nat) else Except.ok 5)
    (fun _ => ("e")) (fun _ => ("e")) 3 3 2 5
    (by omega) (fun j => rfl) (by omega) (by omega)
    (fun j hj => by
      have : j = 0 := by omega
      subst this
      rfl)
    rfl
  refine ⟨h.1, ?_, ?_⟩
  · rw [h.2.1]; decide
  · rw [h.2.2]; decide

/- ### Weather adapter (getWeatherData) -/

/-- One element of the `properties.periods` array of the general
forecast response.  The start-time instant is carried as the
already-parsed epoch milliseconds that `new Date(period.startTime)`
denotes. -/
structure RawPeriod where
  name : String
  startTimeMs : Int
  temperature : Int
  popValue : Option Int
  shortForecast : String
  detailedForecast : String
deriving DecidableEq

def snowMarker : String := ("New snow accumulation")

/-- Embedding of the snow-accumulation extraction (lines 127-138): if
the detailed forecast mentions the marker, split on periods, find the
first sentence containing the marker, and (when that sentence is
truthy, i.e. non-empty) store its trimmed text. -/
def extractSnowAccumulation (detailed : String) : String :=
  if jsIncludes detailed snowMarker then
    match (jsSplitChar '.' detailed).find? (fun s => jsIncludes s snowMarker) with
    | some s => if s = ("") then ("") else jsTrim s
    | none => ("")
  else ("")

/-- The extraction rule as the specification words it: split on period
characters, take the first sentence containing the marker, return its
trimmed text, empty string if absent.  Stated for comparison with the
implementation. -/
def snowExtractionSpec (detailed : String) : String :=
  match (jsSplitChar '.' detailed).find? (fun s => jsIncludes s snowMarker) with
  | some s => jsTrim s
  | none => ("")

/-- Model of `value || 0` on a nullable number. -/
def jsOrZero : Option Int → Int
  | some v => if v = 0 then 0 else v
  | none => 0

structure ProcessedPeriod where
  name : String
  timestamp : Int
  temp : Option Int
  snowfall : Option Int
  snowAmount : String
  shortForecast : String
  detailedForecast : Option String
deriving DecidableEq

/-- Per-period processing of the general forecast response. -/
def processPeriod (p : RawPeriod) : ProcessedPeriod :=
  { name := p.name
    timestamp := p.startTimeMs
    temp := some p.temperature
    snowfall := some (jsOrZero p.popValue)
    snowAmount := extractSnowAccumulation p.detailedForecast
    shortForecast := p.shortForecast
    detailedForecast := some p.detailedForecast }

structure LocationWeather where
  name : String
  forecast : List ProcessedPeriod
deriving DecidableEq

/-- The degraded placeholder stored for a location whose fetches failed
(lines 165-178): a single period named "Unavailable" with null
temperature and precipitation, the fixed advisory message, and no
detailedForecast property. -/
def unavailablePeriod (nowMs : Int) : ProcessedPeriod :=
  { name := ("Unavailable")
    timestamp := nowMs
    temp := none
    snowfall := none
    snowAmount := ("0.0")
    shortForecast := ("Weather data temporarily unavailable")
    detailedForecast := none }

/-- One location's contribution: on success the first 20 periods of the
general forecast response are processed (the hourly response is bound
but unused); on failure the placeholder is stored. -/
def weatherForLocation (displayName : String)
    (outcome : FetchOutcome (List RawPeriod × String)) (nowMs : Int) : LocationWeather :=
  match outcome with
  | .ok fd => { name := displayName, forecast := (fd.1.take 20).map processPeriod }
  | .fail _ => { name := displayName, forecast := [unavailablePeriod nowMs] }

/-- The statically configured location table (key and display name; the
coordinates only feed the fetch URLs, which the environment
abstracts). -/
def LOCATIONS : List (String × String) :=
  [("shelbyTownship", ("Shelby Township")),
   ("nubsNob", ("Nubs Nob")),
   ("otsegoResort", ("Otsego Resort"))]

/-- Embedding of `getWeatherData`: a failed DNS pre-flight check
short-circuits to the empty object; otherwise each location is handled
independently, the environment giving the combined outcome of its
point/forecast/hourly fetches — the payload is the periods of the
general forecast plus the (unused) hourly response body. -/
def getWeatherData (dnsOk : Bool)
    (env : String → FetchOutcome (List RawPeriod × String)) (nowMs : Int) :
    List (String × LocationWeather) :=
  if dnsOk then LOCATIONS.map (fun kl => (kl.1, weatherForLocation kl.2 (env kl.1) nowMs))
  else []

/-- Agreement of two per-location outcomes up to the hourly response
body. -/
def sameForecastPart :
    FetchOutcome (List RawPeriod × String) → FetchOutcome (List RawPeriod × String) → Prop
  | .ok fd₁, .ok fd₂ => fd₁.1 = fd₂.1
  | .fail m₁, .fail m₂ => m₁ = m₂
  | _, _ => False

/- ### Substring lemmas for the extraction proof -/

theorem mem_splitOnCharAux_chunk (sep : Char) :
    ∀ (l acc c : List Char), c ∈ splitOnCharAux sep l acc → c <:+: (acc.reverse ++ l) := by
  intro l
  induction l with
  | nil =>
    intro acc c h
    simp only [splitOnCharAux, List.mem_singleton] at h
    subst h
    simp
  | cons x xs ih =>
    intro acc c h
    unfold splitOnCharAux at h
    by_cases hx : x = sep
    · rw [if_pos hx] at h
      rcases List.mem_cons.mp h with h | h
      · subst h
        exact (List.prefix_append _ _).isInfix
      · have h1 : c <:+: xs := by simpa using ih [] c h
        refine h1.trans ?_
        have h2 : xs <:+ acc.reverse ++ x :: xs := by
          refine (List.suffix_cons x xs).trans ?_
          exact List.suffix_append _ _
        exact h2.isInfix
    · rw [if_neg hx] at h
      have h1 := ih (x :: acc) c h
      rwa [List.reverse_cons, List.append_assoc, List.singleton_append] at h1

theorem infixB_iff (p l : List Char) : infixB p l = true ↔ p <:+: l := by
  unfold infixB
  rw [List.any_eq_true]
  constructor
  · rintro ⟨t, ht, hp⟩
    rw [List.mem_tails] at ht
    exact (List.isPrefixOf_iff_prefix.mp hp).isInfix.trans ht.isInfix
  · intro h
    rw [List.infix_iff_prefix_suffix] at h
    rcases h with ⟨t, hpt, htl⟩
    exact ⟨t, (List.mem_tails _ _).mpr htl, List.isPrefixOf_iff_prefix.mpr hpt⟩

theorem jsIncludes_of_chunk (s t pat : String) (h : jsIncludes s pat = true)
    (hst : s.toList <:+: t.toList) : jsIncludes t pat = true := by
  unfold jsIncludes at *
  rw [infixB_iff] at *
  exact h.trans hst

/-- Claim C4: the snow-accumulation extraction coincides with "split on
period characters, take the first sentence containing the marker,
return its trimmed text, empty if absent", and on the spec's example it
extracts exactly the middle sentence. -/
theorem weather_snow_accumulation_extraction :
    (∀ d : String, extractSnowAccumulation d = snowExtractionSpec d)
    ∧ extractSnowAccumulation
        ("Cloudy. New snow accumulation of 2 to 4 inches possible. Windy.")
      = ("New snow accumulation of 2 to 4 inches possible") := by
  constructor
  · intro d
    unfold extractSnowAccumulation snowExtractionSpec
    by_cases h : jsIncludes d snowMarker = true
    · rw [if_pos h]
      cases hf : (jsSplitChar '.' d).find? (fun s => jsIncludes s snowMarker) with
      | none => rfl
      | some s =>
        have hs := List.find?_some hf
        simp only [] at hs
        by_cases hse : s = ("")
        · rw [hse] at hs
          exact absurd hs (by decide)
        · show (if s = ("") then ("") else jsTrim s) = jsTrim s
          rw [if_neg hse]
    · rw [if_neg h]
      have hnone : (jsSplitChar '.' d).find? (fun s => jsIncludes s snowMarker) = none := by
        rw [List.find?_eq_none]
        intro s hmem hpred
        rcases List.mem_map.mp hmem with ⟨lc, hlc, hsl⟩
        have hinf : lc <:+: d.toList := by
          simpa using mem_splitOnCharAux_chunk '.' d.toList [] lc hlc
        have hsl2 : s.toList = lc := by rw [← hsl]; rfl
        exact h (jsIncludes_of_chunk s d snowMarker hpred (hsl2 ▸ hinf))
      rw [hnone]
  · decide

/-- Claim C10: for a fixed general-forecast response, the hourly
response body never flows into the output — per location the processed
entry is identical for arbitrary hourly bodies, and whole adapter runs
agree whenever the environments agree up to the hourly bodies. -/
theorem weather_hourly_noninterference
    (dns : Bool) (nowMs : Int)
    (env₁ env₂ : String → FetchOutcome (List RawPeriod × String))
    (hagree : ∀ k, sameForecastPart (env₁ k) (env₂ k)) :
    (∀ (nm : String) (ps : List RawPeriod) (h₁ h₂ : String) (t : Int),
        weatherForLocation nm (.ok (ps, h₁)) t = weatherForLocation nm (.ok (ps, h₂)) t)
    ∧ getWeatherData dns env₁ nowMs = getWeatherData dns env₂ nowMs := by
  constructor
  · intro nm ps h₁ h₂ t
    rfl
  · unfold getWeatherData
    cases dns with
    | false => rfl
    | true =>
      show LOCATIONS.map (fun kl => (kl.1, weatherForLocation kl.2 (env₁ kl.1) nowMs))
        = LOCATIONS.map (fun kl => (kl.1, weatherForLocation kl.2 (env₂ kl.1) nowMs))
      refine List.map_congr_left ?_
      intro kl _
      have h := hagree kl.1
      cases he₁ : env₁ kl.1 with
      | ok fd₁ =>
        cases he₂ : env₂ kl.1 with
        | ok fd₂ =>
          rw [he₁, he₂] at h
          unfold sameForecastPart at h
          cases fd₁ with
          | mk ps₁ h₁ =>
            cases fd₂ with
            | mk ps₂ h₂ =>
              simp only at h
              subst h
              rfl
        | fail m₂ =>
          rw [he₁, he₂] at h
          exact absurd h (by simp [sameForecastPart])
      | fail m₁ =>
        cases he₂ : env₂ kl.1 with
        | ok fd₂ =>
          rw [he₁, he₂] at h
          exact absurd h (by simp [sameForecastPart])
        | fail m₂ =>
          rw [he₁, he₂] at h
          unfold sameForecastPart at h
          subst h
          rfl

theorem weather_hourly_noninterference_witness :
    getWeatherData true
        (fun _ => FetchOutcome.ok (([] : List RawPeriod), ("hourly body A"))) 0
      = getWeatherData true
          (fun _ => FetchOutcome.ok (([] : List RawPeriod), ("hourly body B"))) 0 :=
  (weather_hourly_noninterference true 0
    (fun _ => FetchOutcome.ok (([] : List RawPeriod), ("hourly body A")))
    (fun _ => FetchOutcome.ok (([] : List RawPeriod), ("hourly body B")))
    (fun _ => rfl)).2

/- ### Resort-bulletin adapter (getMetroparkConditions, per-park variant) -/

/-- A strong-emphasis node inside a park panel, with the text of its
enclosing paragraph (empty when the parent is not a paragraph, as
cheerio's empty selection renders). -/
structure StrongNode where
  strongText : String
  parentPText : String
deriving DecidableEq

/-- One collapsible park panel of the closures page, identified by its
DOM id. -/
structure Panel where
  id : String
  titleText : String
  strongs : List StrongNode
deriving DecidableEq

structure BulletinSection where
  header : String
  content : String
deriving DecidableEq

/-- One park's entry: the initial object carries only `sections`; the
title is added when the panel is found and the error field only on
fetch failure (field order mirrors the JS object). -/
structure ParkEntry where
  sections : List BulletinSection
  title : Option String
  error : Option String
deriving DecidableEq

/-- Model of `fullText.substring(start)` for an in-range or overflowing
start index. -/
def jsSubstringFrom (s : String) (n : Nat) : String :=
  (s.toList.drop n).asString

/-- The configured search-term table (`parkMap`). -/
def parkMap : List (String × List String) :=
  [(("HuronMeadowsMetropark"),
    [("Bucks Run"), ("Natural Snow Classic and Skate Ski Trails")]),
   (("StonyCreekMetropark"), [("Stony Creek Cross Country")])]

/-- Panel scan for one park (lines 694-717): find the panel by id, take
its trimmed title, and for every strong element whose trimmed text
contains one of the park's search terms, record a section whose content
is the enclosing paragraph text with the bold prefix stripped. -/
def parkConditions (parkId : String) (searchTerms : List String)
    (page : List Panel) : ParkEntry :=
  match page.find? (fun p => p.id == parkId) with
  | none => { sections := [], title := none, error := none }
  | some panel =>
    { sections := panel.strongs.filterMap (fun sn =>
        if searchTerms.any (fun term => jsIncludes (jsTrim sn.strongText) term) then
          some { header := jsTrim sn.strongText,
                 content := jsTrim (jsSubstringFrom (jsTrim sn.parentPText)
                              (jsTrim sn.strongText).length) }
        else none)
      title := some (jsTrim panel.titleText)
      error := none }

/-- The degraded entry stored when one park's fetch fails (lines
718-724). -/
def parkFailEntry (msg : String) : ParkEntry :=
  { sections := [], title := none,
    error := some (("Failed to fetch conditions: ") ++ msg) }

/-- Per-park processing of the fetched page. -/
def metroParkItem (pt : String × List String)
    (outcome : FetchOutcome (List Panel)) : ParkEntry :=
  match outcome with
  | .ok page => parkConditions pt.1 pt.2 page
  | .fail msg => parkFailEntry msg

/-- Embedding of the per-park `getMetroparkConditions`: each monitored
park is fetched and scanned independently; a failure yields its error
entry without affecting the sibling park. -/
def getMetroparkConditions (env : String → FetchOutcome (List Panel)) :
    List (String × ParkEntry) :=
  parkMap.map (fun pt => (pt.1, metroParkItem pt (env pt.1)))

/-- Entries produced by mapping an item function over a keyed table
depend only on the environment's value at their own key. -/
theorem objGet_map_env {γ δ ε : Type} (L : List (String × γ))
    (Q : String × γ → δ → ε) (f g : String → δ) (j : String) (h : f j = g j) :
    objGet (L.map (fun kl => (kl.1, Q kl (f kl.1)))) j
      = objGet (L.map (fun kl => (kl.1, Q kl (g kl.1)))) j := by
  induction L with
  | nil => rfl
  | cons kl rest ih =>
    simp only [List.map_cons]
    show (if kl.1 = j then some (Q kl (f kl.1)) else objGet _ j)
      = (if kl.1 = j then some (Q kl (g kl.1)) else objGet _ j)
    by_cases hk : kl.1 = j
    · rw [if_pos hk, if_pos hk, hk, h]
    · rw [if_neg hk, if_neg hk]
      exact ih

/-- Claim C5: in the weather, resort-bulletin and regional trail-report
adapters a permanent fetch failure of one item is isolated — the failed
weather location gets exactly the "Unavailable" placeholder period with
null temperature and precipitation and the fixed advisory message, a
failed park gets the error entry, every other item's entry depends only
on that item's own outcome, and a failed trail-report region simply
drops out of the region fold. -/
theorem adapter_failure_isolation
    (now : Int) (y : Nat)
    (wenv wenvA wenvB : String → FetchOutcome (List RawPeriod × String))
    (menv menvA menvB : String → FetchOutcome (List Panel))
    (nenvA nenvB : Nat → FetchOutcome (List (String × String)))
    (key name wmsg jw : String)
    (pid : String) (terms : List String) (mmsg jm : String)
    (msgA msgB : String)
    (hwkey : (key, name) ∈ LOCATIONS)
    (hwfail : wenv key = .fail wmsg)
    (hwagree : wenvA jw = wenvB jw)
    (hpid : (pid, terms) ∈ parkMap)
    (hmfail : menv pid = .fail mmsg)
    (hmagree : menvA jm = menvB jm)
    (hnA : nenvA 11 = .fail msgA)
    (hnB : nenvB 13 = .fail msgB) :
    objGet (getWeatherData true wenv now) key
        = some { name := name, forecast := [unavailablePeriod now] }
    ∧ objGet (getWeatherData true wenvA now) jw = objGet (getWeatherData true wenvB now) jw
    ∧ objGet (getMetroparkConditions menv) pid = some (parkFailEntry mmsg)
    ∧ objGet (getMetroparkConditions menvA) jm = objGet (getMetroparkConditions menvB) jm
    ∧ getNordicSkiRacerConditions y nenvA = getNordicOfRegions y [13] nenvA
    ∧ getNordicSkiRacerConditions y nenvB = getNordicOfRegions y [11] nenvB := by
  refine ⟨?_, ?_, ?_, ?_, ?_, ?_⟩
  · simp only [LOCATIONS, List.mem_cons, List.not_mem_nil, or_false] at hwkey
    rcases hwkey with h | h | h <;>
      (injection h with h1 h2; subst h1; subst h2;
       simp [getWeatherData, LOCATIONS, objGet, weatherForLocation, hwfail])
  · exact objGet_map_env LOCATIONS (fun kl d => weatherForLocation kl.2 d now)
      wenvA wenvB jw hwagree
  · simp only [parkMap, List.mem_cons, List.not_mem_nil, or_false] at hpid
    rcases hpid with h | h <;>
      (injection h with h1 h2; subst h1; subst h2;
       simp [getMetroparkConditions, parkMap, objGet, metroParkItem, hmfail])
  · exact objGet_map_env parkMap metroParkItem menvA menvB jm hmagree
  · unfold getNordicSkiRacerConditions getNordicOfRegions nordicRegions regionsFold
    simp [hnA, processRegion]
  · unfold getNordicSkiRacerConditions getNordicOfRegions nordicRegions regionsFold
    simp [hnB, processRegion]

theorem adapter_failure_isolation_witness :
    objGet (getWeatherData true (fun _ => FetchOutcome.fail ("down")) 0) ("nubsNob")
        = some { name := ("Nubs Nob"), forecast := [unavailablePeriod 0] }
    ∧ objGet (getWeatherData true (fun _ => FetchOutcome.fail ("x")) 0) ("nubsNob")
        = objGet (getWeatherData true (fun _ => FetchOutcome.fail ("x")) 0) ("nubsNob")
    ∧ objGet (getMetroparkConditions (fun _ => FetchOutcome.fail ("down")))
          ("StonyCreekMetropark")
        = some (parkFailEntry ("down"))
    ∧ objGet (getMetroparkConditions (fun _ => FetchOutcome.fail ("y")))
          ("HuronMeadowsMetropark")
        = objGet (getMetroparkConditions (fun _ => FetchOutcome.fail ("y")))
            ("HuronMeadowsMetropark")
    ∧ getNordicSkiRacerConditions 2026 (fun _ => FetchOutcome.fail ("n"))
        = getNordicOfRegions 2026 [13] (fun _ => FetchOutcome.fail ("n"))
    ∧ getNordicSkiRacerConditions 2026 (fun _ => FetchOutcome.fail ("n"))
        = getNordicOfRegions 2026 [11] (fun _ => FetchOutcome.fail ("n")) :=
  adapter_failure_isolation 0 2026
    (fun _ => FetchOutcome.fail ("down"))
    (fun _ => FetchOutcome.fail ("x")) (fun _ => FetchOutcome.fail ("x"))
    (fun _ => FetchOutcome.fail ("down"))
    (fun _ => FetchOutcome.fail ("y")) (fun _ => FetchOutcome.fail ("y"))
    (fun _ => FetchOutcome.fail ("n")) (fun _ => FetchOutcome.fail ("n"))
    ("nubsNob") ("Nubs Nob") ("down") ("nubsNob")
    ("StonyCreekMetropark") [("Stony Creek Cross Country")] ("down")
    ("HuronMeadowsMetropark") ("n") ("n")
    (by decide) rfl rfl (by decide) rfl rfl rfl rfl

/- ### Single-resort-conditions adapter (getNubsNobConditions) -/

/-- The conditions page modelled as its record rows, each row the list
of its cells' text contents. -/
def NubsRows : Type := List (List String)

structure SnowData where
  daily : String
  threeDays : String
  sevenDays : String
  ytd : String
deriving DecidableEq

structure NubsConditions where
  date : String
  liftsOpen : String
  xcTrails : String
  nightSkiing : String
  comments : String
  snowData : SnowData
deriving DecidableEq

/-- Label lookup (lines 359-371): keep every row whose first cell's
trimmed text equals the label, collect all their cells, and take the
trimmed text of the second cell overall (empty for a missing cell, and
`value || ""` keeps the empty string). -/
def getValueByLabel (rows : List (List String)) (label : String) : String :=
  jsTrim ((rows.filter (fun r => jsTrim (r.headD ("")) == label)).flatten.getD 1 (""))

/-- Multi-cell snow lookup (lines 374-396). -/
def getSnowData (rows : List (List String)) : SnowData :=
  if (rows.filter (fun r => jsTrim (r.headD ("")) == ("New Snow since yesterday:"))) ≠ [] then
    { daily := jsTrim
        ((rows.filter (fun r => jsTrim (r.headD ("")) == ("New Snow since yesterday:"))).flatten.getD 1 (""))
      threeDays := jsTrim
        ((rows.filter (fun r => jsTrim (r.headD ("")) == ("New Snow since yesterday:"))).flatten.getD 2 (""))
      sevenDays := jsTrim
        ((rows.filter (fun r => jsTrim (r.headD ("")) == ("New Snow since yesterday:"))).flatten.getD 3 (""))
      ytd := jsTrim
        ((rows.filter (fun r => jsTrim (r.headD ("")) == ("New Snow since yesterday:"))).flatten.getD 4 ("")) }
  else { daily := (""), threeDays := (""), sevenDays := (""), ytd := ("") }

def nubsFromRows (rows : List (List String)) : NubsConditions :=
  { date := getValueByLabel rows ("Date:")
    liftsOpen := getValueByLabel rows ("Lifts Open:")
    xcTrails := getValueByLabel rows ("XC Trail System:")
    nightSkiing := getValueByLabel rows ("Night Skiing:")
    comments := getValueByLabel rows ("Comments:")
    snowData := getSnowData rows }

/-- Embedding of `getNubsNobConditions`: the single page fetch is
wrapped in the shared retry executor and nothing else — a (post-retry)
failure propagates as a thrown error, with no per-field isolation. -/
def getNubsNobConditions (outcome : FetchOutcome (List (List String))) :
    Except String NubsConditions :=
  match outcome with
  | .ok rows => .ok (nubsFromRows rows)
  | .fail msg => .error msg

/- ### JSON document model and JSON.stringify(data, null, 2) -/

mutual
inductive JsonVal where
  | null
  | bool (b : Bool)
  | num (n : Int)
  | str (s : String)
  | arr (items : JsonArr)
  | obj (fields : JsonObj)
inductive JsonArr where
  | nil
  | cons (v : JsonVal) (rest : JsonArr)
inductive JsonObj where
  | nil
  | cons (k : String) (v : JsonVal) (rest : JsonObj)
end

def jsonArrOfList : List JsonVal → JsonArr
  | [] => .nil
  | v :: vs => .cons v (jsonArrOfList vs)

def jsonObjOfList : List (String × JsonVal) → JsonObj
  | [] => .nil
  | f :: fs => .cons f.1 f.2 (jsonObjOfList fs)

def jsonObjKeyList : JsonObj → List String
  | .nil => []
  | .cons k _ rest => k :: jsonObjKeyList rest

/-- Top-level key list of a JSON object value. -/
def jsonObjKeys : JsonVal → List String
  | .obj fs => jsonObjKeyList fs
  | _ => []

def jsonObjFind : JsonObj → String → Option JsonVal
  | .nil, _ => none
  | .cons k' v rest, k => if k' = k then some v else jsonObjFind rest k

/-- Field read on a JSON object value. -/
def jsonObjGet (v : JsonVal) (k : String) : Option JsonVal :=
  match v with
  | .obj fs => jsonObjFind fs k
  | _ => none

def hexDigitChar (n : Nat) : Char :=
  (("0123456789abcdef").toList.getD n '0')

/-- JSON string escaping as JSON.stringify performs it. -/
def escapeJsonChar (c : Char) : List Char :=
  if c = '"' then ['\\', '"']
  else if c = '\\' then ['\\', '\\']
  else if c = '\n' then ['\\', 'n']
  else if c = '\r' then ['\\', 'r']
  else if c = '\t' then ['\\', 't']
  else if c.toNat = 8 then ['\\', 'b']
  else if c.toNat = 12 then ['\\', 'f']
  else if c.toNat < 32 then
    ['\\', 'u', '0', '0', hexDigitChar (c.toNat / 16), hexDigitChar (c.toNat % 16)]
  else [c]

def escapeJsonList : List Char → List Char
  | [] => []
  | c :: cs => escapeJsonChar c ++ escapeJsonList cs

def jsonQuote (s : String) : String :=
  ("\"") ++ (escapeJsonList s.toList).asString ++ ("\"")

def jsonIndent (n : Nat) : String :=
  (List.replicate (2 * n) ' ').asString

mutual
/-- Renderer of JSON.stringify(v, null, 2) at a given nesting depth. -/
def renderJson : Nat → JsonVal → String
  | _, .null => ("null")
  | _, .bool b => if b then ("true") else ("false")
  | _, .num n => toString n
  | _, .str s => jsonQuote s
  | _, .arr .nil => ("[]")
  | ind, .arr (.cons v vs) =>
      ("[\n") ++ String.intercalate (",\n") (renderItems (ind + 1) (.cons v vs))
        ++ ("\n") ++ jsonIndent ind ++ ("]")
  | _, .obj .nil => ("\x7b\x7d")
  | ind, .obj (.cons k v fs) =>
      ("\x7b\n") ++ String.intercalate (",\n") (renderFields (ind + 1) (.cons k v fs))
        ++ ("\n") ++ jsonIndent ind ++ ("\x7d")
def renderItems : Nat → JsonArr → List String
  | _, .nil => []
  | ind, .cons v vs => (jsonIndent ind ++ renderJson ind v) :: renderItems ind vs
def renderFields : Nat → JsonObj → List String
  | _, .nil => []
  | ind, .cons k v fs =>
      (jsonIndent ind ++ jsonQuote k ++ (": ") ++ renderJson ind v) :: renderFields ind fs
end

/-- Model of `JSON.stringify(data, null, 2)`. -/
def jsonStringifyPretty (data : JsonVal) : String :=
  renderJson 0 data

/- ### Base64 of the UTF-8 payload (Buffer.from(...).toString("base64")) -/

def utf8EncodeCharBytes (c : Char) : List Nat :=
  let n := c.toNat
  if n < 128 then [n]
  else if n < 2048 then [192 + n / 64, 128 + n % 64]
  else if n < 65536 then [224 + n / 4096, 128 + (n / 64) % 64, 128 + n % 64]
  else [240 + n / 262144, 128 + (n / 4096) % 64, 128 + (n / 64) % 64, 128 + n % 64]

def utf8BytesList : List Char → List Nat
  | [] => []
  | c :: cs => utf8EncodeCharBytes c ++ utf8BytesList cs

def utf8Bytes (s : String) : List Nat :=
  utf8BytesList s.toList

def b64Char (n : Nat) : Char :=
  (("ABCDEFGHIJKLMNOPQRSTUVWXYZabcdefghijklmnopqrstuvwxyz0123456789+/").toList.getD n 'A')

def base64Chunks : List Nat → List Char
  | [] => []
  | [a] => [b64Char (a / 4), b64Char ((a % 4) * 16), '=', '=']
  | [a, b] => [b64Char (a / 4), b64Char ((a % 4) * 16 + b / 16), b64Char ((b % 16) * 4), '=']
  | a :: b :: c :: rest =>
      [b64Char (a / 4), b64Char ((a % 4) * 16 + b / 16),
       b64Char ((b % 16) * 4 + c / 64), b64Char (c % 64)] ++ base64Chunks rest

def base64Encode (bytes : List Nat) : String :=
  (base64Chunks bytes).asString

/- ### Publisher (updateGitHubData) -/

/-- Content metadata of the remote file when it exists: its revision
marker (sha). -/
structure FileMeta where
  sha : String
deriving DecidableEq

/-- The arguments of the createOrUpdateFileContents call the publisher
issues (owner/repository come verbatim from the environment and are
omitted). -/
structure WriteCall where
  path : String
  message : String
  contentB64 : String
  sha : Option String
deriving DecidableEq

def dataJsonPath : String := ("data/conditions.json")

/-- The pre-read step: getContent either returns the file metadata or
throws; the catch leaves `sha` undefined ("file does not exist yet,
will create it"). -/
def readShaStep (remote : Option FileMeta) : Option String :=
  match remote with
  | some fd => some fd.sha
  | none => none

/-- Embedding of `updateGitHubData(data)` against a remote store whose
current file state is `remote`: read the marker if present, then issue
one write carrying the pretty-printed JSON (base64 of its UTF-8 bytes)
and the marker exactly when one was read. -/
def updateGitHubData (remote : Option FileMeta) (data : JsonVal) : WriteCall :=
  { path := dataJsonPath
    message := ("Update conditions data")
    contentB64 := base64Encode (utf8Bytes (jsonStringifyPretty data))
    sha := readShaStep remote }

/- ### Aggregator and entry point (main) -/

def optNumJson : Option Int → JsonVal
  | some n => .num n
  | none => .null

def periodToJson (p : ProcessedPeriod) : JsonVal :=
  .obj (jsonObjOfList
    ([(("name"), JsonVal.str p.name),
      (("timestamp"), JsonVal.num p.timestamp),
      (("temp"), optNumJson p.temp),
      (("snowfall"), optNumJson p.snowfall),
      (("snowAmount"), JsonVal.str p.snowAmount),
      (("shortForecast"), JsonVal.str p.shortForecast)]
     ++ (match p.detailedForecast with
         | some d => [(("detailedForecast"), JsonVal.str d)]
         | none => [])))

def locationWeatherToJson (lw : LocationWeather) : JsonVal :=
  .obj (jsonObjOfList
    [(("name"), JsonVal.str lw.name),
     (("forecast"), JsonVal.arr (jsonArrOfList (lw.forecast.map periodToJson)))])

def weatherToJson (m : List (String × LocationWeather)) : JsonVal :=
  .obj (jsonObjOfList (m.map (fun kv => (kv.1, locationWeatherToJson kv.2))))

def bulletinSectionToJson (s : BulletinSection) : JsonVal :=
  .obj (jsonObjOfList
    [(("header"), JsonVal.str s.header), (("content"), JsonVal.str s.content)])

def parkEntryToJson (pe : ParkEntry) : JsonVal :=
  .obj (jsonObjOfList
    ([(("sections"), JsonVal.arr (jsonArrOfList (pe.sections.map bulletinSectionToJson)))]
     ++ (match pe.title with
         | some t => [(("title"), JsonVal.str t)]
         | none => [])
     ++ (match pe.error with
         | some e => [(("error"), JsonVal.str e)]
         | none => [])))

def metroToJson (m : List (String × ParkEntry)) : JsonVal :=
  .obj (jsonObjOfList (m.map (fun kv => (kv.1, parkEntryToJson kv.2))))

def trailOutToJson (t : TrailOut) : JsonVal :=
  .obj (jsonObjOfList
    [(("lastUpdated"), JsonVal.str t.lastUpdated),
     (("conditions"), JsonVal.str t.conditions)])

def nordicToJson (m : List (String × TrailOut)) : JsonVal :=
  .obj (jsonObjOfList (m.map (fun kv => (kv.1, trailOutToJson kv.2))))

def snowDataToJson (s : SnowData) : JsonVal :=
  .obj (jsonObjOfList
    [(("daily"), JsonVal.str s.daily), (("threeDays"), JsonVal.str s.threeDays),
     (("sevenDays"), JsonVal.str s.sevenDays), (("ytd"), JsonVal.str s.ytd)])

def nubsToJson (n : NubsConditions) : JsonVal :=
  .obj (jsonObjOfList
    [(("date"), JsonVal.str n.date), (("liftsOpen"), JsonVal.str n.liftsOpen),
     (("xcTrails"), JsonVal.str n.xcTrails), (("nightSkiing"), JsonVal.str n.nightSkiing),
     (("comments"), JsonVal.str n.comments), (("snowData"), snowDataToJson n.snowData)])

/-- The abstracted inputs of one run: the clock readings and each
adapter's fetch environment. -/
structure MainEnv where
  dnsOk : Bool
  weatherEnv : String → FetchOutcome (List RawPeriod × String)
  metroEnv : String → FetchOutcome (List Panel)
  nordicEnv : Nat → FetchOutcome (List (String × String))
  nubsFetch : FetchOutcome (List (List String))
  nowMs : Int
  isoTimestamp : String
  currentYear : Nat

/-- The document object literal assembled in `main` (lines 455-461):
the generation timestamp plus the four adapter sections, in the
program's key order. -/
def buildDocument (e : MainEnv) (nubs : NubsConditions) : JsonVal :=
  .obj (jsonObjOfList
    [(("timestamp"), JsonVal.str e.isoTimestamp),
     (("weather"), weatherToJson (getWeatherData e.dnsOk e.weatherEnv e.nowMs)),
     (("metroparkConditions"), metroToJson (getMetroparkConditions e.metroEnv)),
     (("nordicConditions"),
        nordicToJson (getNordicSkiRacerConditions e.currentYear e.nordicEnv)),
     (("nubsNob"), nubsToJson nubs)])

/-- Observable outcome of one run: the write issued to the store, if
any, and the process exit code. -/
structure RunOutcome where
  write : Option WriteCall
  exitCode : Nat
deriving DecidableEq

/-- Embedding of `main` against a remote store state: the first three
adapters always return (their failures are isolated internally); only
the single-resort adapter can throw, in which case the outer catch
fires — no write is attempted and the process exits with status 1.
Otherwise the assembled document is published and the run exits 0. -/
def mainRun (e : MainEnv) (remote : Option FileMeta) : RunOutcome :=
  match getNubsNobConditions e.nubsFetch with
  | .ok nubs => { write := some (updateGitHubData remote (buildDocument e nubs)), exitCode := 0 }
  | .error _ => { write := none, exitCode := 1 }

/-- Truth value "this outcome is a failure". -/
def isFailB {α : Type} : FetchOutcome α → Bool
  | .fail _ => true
  | .ok _ => false

/-- Claim C6: every run that reaches the publish step writes a document
carrying all four top-level sections plus the generation timestamp;
degraded adapters contribute empty mappings (weather after a DNS
failure, trail reports when every region fails) rather than omitting
their key. -/
theorem document_top_level_sections_present
    (e : MainEnv) (remote : Option FileMeta) (rows : List (List String))
    (hok : e.nubsFetch = .ok rows) :
    (mainRun e remote).write
        = some (updateGitHubData remote (buildDocument e (nubsFromRows rows)))
    ∧ (mainRun e remote).exitCode = 0
    ∧ jsonObjKeys (buildDocument e (nubsFromRows rows))
        = [("timestamp"), ("weather"), ("metroparkConditions"),
           ("nordicConditions"), ("nubsNob")]
    ∧ (e.dnsOk = false →
        jsonObjGet (buildDocument e (nubsFromRows rows)) ("weather")
          = some (JsonVal.obj JsonObj.nil))
    ∧ ((∀ r, isFailB (e.nordicEnv r) = true) →
        jsonObjGet (buildDocument e (nubsFromRows rows)) ("nordicConditions")
          = some (JsonVal.obj JsonObj.nil)) := by
  refine ⟨?_, ?_, ?_, ?_, ?_⟩
  · unfold mainRun getNubsNobConditions
    rw [hok]
  · unfold mainRun getNubsNobConditions
    rw [hok]
  · rfl
  · intro hdns
    unfold buildDocument getWeatherData
    rw [hdns]
    rfl
  · intro hnf
    have h11 : ∃ m, e.nordicEnv 11 = .fail m := by
      have := hnf 11
      cases he : e.nordicEnv 11 with
      | ok v => rw [he] at this; exact absurd this (by simp [isFailB])
      | fail m => exact ⟨m, rfl⟩
    have h13 : ∃ m, e.nordicEnv 13 = .fail m := by
      have := hnf 13
      cases he : e.nordicEnv 13 with
      | ok v => rw [he] at this; exact absurd this (by simp [isFailB])
      | fail m => exact ⟨m, rfl⟩
    rcases h11 with ⟨m11, h11⟩
    rcases h13 with ⟨m13, h13⟩
    unfold buildDocument getNordicSkiRacerConditions getNordicOfRegions nordicRegions
      regionsFold
    simp [h11, h13, processRegion, stripDates, nordicToJson, jsonObjGet, jsonObjFind,
      jsonObjOfList]

theorem document_top_level_sections_present_witness :
    (mainRun
        { dnsOk := false
          weatherEnv := fun _ => FetchOutcome.fail ("w")
          metroEnv := fun _ => FetchOutcome.fail ("m")
          nordicEnv := fun _ => FetchOutcome.fail ("n")
          nubsFetch := FetchOutcome.ok []
          nowMs := 0
          isoTimestamp := ("2026-01-14T12:00:00.000Z")
          currentYear := 2026 } none).write
      = some (updateGitHubData none
          (buildDocument
            { dnsOk := false
              weatherEnv := fun _ => FetchOutcome.fail ("w")
              metroEnv := fun _ => FetchOutcome.fail ("m")
              nordicEnv := fun _ => FetchOutcome.fail ("n")
              nubsFetch := FetchOutcome.ok []
              nowMs := 0
              isoTimestamp := ("2026-01-14T12:00:00.000Z")
              currentYear := 2026 } (nubsFromRows [])))
    ∧ jsonObjKeys (buildDocument
        { dnsOk := false
          weatherEnv := fun _ => FetchOutcome.fail ("w")
          metroEnv := fun _ => FetchOutcome.fail ("m")
          nordicEnv := fun _ => FetchOutcome.fail ("n")
          nubsFetch := FetchOutcome.ok []
          nowMs := 0
          isoTimestamp := ("2026-01-14T12:00:00.000Z")
          currentYear := 2026 } (nubsFromRows []))
      = [("timestamp"), ("weather"), ("metroparkConditions"),
         ("nordicConditions"), ("nubsNob")]
    ∧ jsonObjGet (buildDocument
        { dnsOk := false
          weatherEnv := fun _ => FetchOutcome.fail ("w")
          metroEnv := fun _ => FetchOutcome.fail ("m")
          nordicEnv := fun _ => FetchOutcome.fail ("n")
          nubsFetch := FetchOutcome.ok []
          nowMs := 0
          isoTimestamp := ("2026-01-14T12:00:00.000Z")
          currentYear := 2026 } (nubsFromRows [])) ("weather")
      = some (JsonVal.obj JsonObj.nil)
    ∧ jsonObjGet (buildDocument
        { dnsOk := false
          weatherEnv := fun _ => FetchOutcome.fail ("w")
          metroEnv := fun _ => FetchOutcome.fail ("m")
          nordicEnv := fun _ => FetchOutcome.fail ("n")
          nubsFetch := FetchOutcome.ok []
          nowMs := 0
          isoTimestamp := ("2026-01-14T12:00:00.000Z")
          currentYear := 2026 } (nubsFromRows [])) ("nordicConditions")
      = some (JsonVal.obj JsonObj.nil) := by
  have h := document_top_level_sections_present
    { dnsOk := false
      weatherEnv := fun _ => FetchOutcome.fail ("w")
      metroEnv := fun _ => FetchOutcome.fail ("m")
      nordicEnv := fun _ => FetchOutcome.fail ("n")
      nubsFetch := FetchOutcome.ok []
      nowMs := 0
      isoTimestamp := ("2026-01-14T12:00:00.000Z")
      currentYear := 2026 } none [] rfl
  exact ⟨h.1, h.2.2.1, h.2.2.2.1 rfl, h.2.2.2.2 (fun r => rfl)⟩

/-- Claim C7: a failure of the single-resort adapter's one page fetch
(after retry exhaustion) propagates uncaught out of the adapter — no
partial result is produced — and aborts the run before the publish
step: no write is attempted and the process exits with a non-zero
status. -/
theorem nubs_failure_aborts_run
    (e : MainEnv) (remote : Option FileMeta) (msg : String)
    (hfail : e.nubsFetch = .fail msg) :
    getNubsNobConditions e.nubsFetch = .error msg
    ∧ (mainRun e remote).write = none
    ∧ (mainRun e remote).exitCode = 1
    ∧ (mainRun e remote).exitCode ≠ 0 := by
  have h : getNubsNobConditions e.nubsFetch = .error msg := by
    unfold getNubsNobConditions
    rw [hfail]
  refine ⟨h, ?_, ?_, ?_⟩ <;> simp [mainRun, h]

theorem nubs_failure_aborts_run_witness :
    getNubsNobConditions (FetchOutcome.fail ("timeout")) = Except.error ("timeout")
    ∧ (mainRun
        { dnsOk := true
          weatherEnv := fun _ => FetchOutcome.ok ([], (""))
          metroEnv := fun _ => FetchOutcome.ok []
          nordicEnv := fun _ => FetchOutcome.ok []
          nubsFetch := FetchOutcome.fail ("timeout")
          nowMs := 0
          isoTimestamp := ("2026-01-14T12:00:00.000Z")
          currentYear := 2026 } none).write = none
    ∧ (mainRun
        { dnsOk := true
          weatherEnv := fun _ => FetchOutcome.ok ([], (""))
          metroEnv := fun _ => FetchOutcome.ok []
          nordicEnv := fun _ => FetchOutcome.ok []
          nubsFetch := FetchOutcome.fail ("timeout")
          nowMs := 0
          isoTimestamp := ("2026-01-14T12:00:00.000Z")
          currentYear := 2026 } none).exitCode = 1
    ∧ (mainRun
        { dnsOk := true
          weatherEnv := fun _ => FetchOutcome.ok ([], (""))
          metroEnv := fun _ => FetchOutcome.ok []
          nordicEnv := fun _ => FetchOutcome.ok []
          nubsFetch := FetchOutcome.fail ("timeout")
          nowMs := 0
          isoTimestamp := ("2026-01-14T12:00:00.000Z")
          currentYear := 2026 } none).exitCode ≠ 0 :=
  nubs_failure_aborts_run
    { dnsOk := true
      weatherEnv := fun _ => FetchOutcome.ok ([], (""))
      metroEnv := fun _ => FetchOutcome.ok []
      nordicEnv := fun _ => FetchOutcome.ok []
      nubsFetch := FetchOutcome.fail ("timeout")
      nowMs := 0
      isoTimestamp := ("2026-01-14T12:00:00.000Z")
      currentYear := 2026 } none ("timeout") rfl

/-- Claim C8: the publisher reads the current revision marker first;
when none exists the write carries no marker (create case), when one
exists the write carries exactly that marker (update case); the write
targets the fixed path with the fixed commit message, and its payload
is the base64 of the UTF-8 bytes of the document pretty-printed as
JSON with two-space indentation (illustrated on a one-field object). -/
theorem publisher_marker_protocol (data : JsonVal) (fd : FileMeta)
    (remote : Option FileMeta) :
    (updateGitHubData none data).sha = none
    ∧ (updateGitHubData (some fd) data).sha = some fd.sha
    ∧ (updateGitHubData remote data).contentB64
        = base64Encode (utf8Bytes (jsonStringifyPretty data))
    ∧ (updateGitHubData remote data).path = dataJsonPath
    ∧ (updateGitHubData remote data).message = ("Update conditions data")
    ∧ jsonStringifyPretty
        (JsonVal.obj (JsonObj.cons ("winter") (JsonVal.num 7) JsonObj.nil))
      = ("\x7b\n  \"winter\": 7\n\x7d") :=
  ⟨rfl, rfl, rfl, rfl, rfl, rfl⟩

end SkiConditionsData
